import Mathlib

/-!
Shallow embedding of `backend/app.py` (deepfake-detection inference service).

The service wraps a pretrained two-class network:
- `predict_image` (app.py lines 73-113): model-loaded check, RGB conversion,
  torchvision preprocessing, forward pass, softmax over the two logits,
  strict 0.5 threshold, confidence selection, 4-decimal presentation rounding;
- the `POST /predict` handler `predict` (app.py lines 160-199): content-type
  guard (400), decode + inference wrapped in a try/except reported as 500.

External libraries (PIL, torchvision, the torch network forward) are modelled as
black-box functions bundled in `Env`/`Model`; float arithmetic is modelled over
ℝ, with `torch.softmax` as the mathematical two-class softmax and the Python
`round(x, 4)` as round-half-even at the fourth decimal (the tie rule only
differs from round-half-up at exact ties, which no claim depends on).
-/

namespace IsItAI

/-- A decoded PIL image: a color-mode string (e.g. "RGB", "L", "RGBA") and
abstract decoded pixel content. -/
structure PILImage where
  mode : String
  data : List Nat
deriving DecidableEq

/-- A preprocessed tensor (the 1×3×224×224 float data produced by the
torchvision pipeline), contents abstract. -/
structure Tensor where
  data : List ℝ

/-- The loaded network (app.py `model` after `load_model`): a black-box
forward pass from the preprocessed tensor to the two raw logits
`(outputs[0][0], outputs[0][1])` = (real logit, fake logit); fallible
(e.g. an unexpected-shape exception). -/
structure Model where
  forward : Tensor → Except String (ℝ × ℝ)

/-- The external library functions app.py calls, as black boxes:
`Image.convert("RGB")` (PIL), the `preprocess` torchvision Compose pipeline
of lines 63-71 (Resize to 224×224, ToTensor, Normalize with ImageNet
mean/std; fallible), and `Image.open` (PIL decode of the uploaded bytes;
fallible on corrupt data). -/
structure Env where
  convertRGB : PILImage → PILImage
  preprocessT : PILImage → Except String Tensor
  openImage : List Nat → Except String PILImage

/-- Two-class softmax, the semantics of `torch.softmax(outputs, dim=1)` on a
1×2 logit tensor (app.py line 96). -/
noncomputable def softmax2 (x y : ℝ) : ℝ × ℝ :=
  (Real.exp x / (Real.exp x + Real.exp y),
   Real.exp y / (Real.exp x + Real.exp y))

/-- Round to the nearest integer, ties to even: the tie rule of the Python
builtin `round`. -/
noncomputable def roundHalfEven (x : ℝ) : ℤ :=
  if Int.fract x = 1 / 2 then 2 * round (x / 2) else round x

/-- The Python `round(x, 4)` (app.py lines 107, 110, 111). -/
noncomputable def round4 (x : ℝ) : ℝ :=
  (roundHalfEven (x * 10000) : ℝ) / 10000

/-- The nested `probabilities` dict of the returned record. -/
structure ClassProbs where
  real : ℝ
  fake : ℝ

/-- The dict returned by `predict_image` (app.py lines 105-113). -/
structure PredictionResult where
  is_fake : Bool
  confidence : ℝ
  label : String
  probabilities : ClassProbs

/-- Lines 86-87 of app.py: `if image.mode != "RGB": image = image.convert("RGB")`. -/
def to_rgb (env : Env) (image : PILImage) : PILImage :=
  if image.mode ≠ "RGB" then env.convertRGB image else image

/-- `predict_image` (app.py lines 73-113). `model` is the process-wide global;
a raised exception is an `Except.error` carrying `str(e)`. -/
noncomputable def predict_image (env : Env) (model : Option Model)
    (image : PILImage) : Except String PredictionResult :=
  match model with
  | none => Except.error "Model not loaded"
  | some m =>
    match env.preprocessT (to_rgb env image) with
    | Except.error e => Except.error e
    | Except.ok img_tensor =>
      match m.forward img_tensor with
      | Except.error e => Except.error e
      | Except.ok outputs =>
        let probs := softmax2 outputs.1 outputs.2
        let fake_prob := probs.2
        let real_prob := probs.1
        let is_fake : Bool := decide (fake_prob > 0.5)
        let confidence := if is_fake then fake_prob else real_prob
        let label := if is_fake then "FAKE" else "REAL"
        Except.ok {
          is_fake := is_fake,
          confidence := round4 confidence,
          label := label,
          probabilities := { real := round4 real_prob, fake := round4 fake_prob } }

/-- The `POST /predict` handler response: a 200 success body or an
`HTTPException` with a status code and detail string. -/
inductive PredictResponse where
  | success (filename : String) (result : PredictionResult)
  | httpError (status_code : Nat) (detail : String)

/-- The FastAPI `UploadFile` as app.py reads it: a declared content type
(`none` models an absent one), a filename, and the raw uploaded bytes. -/
structure UploadFile where
  filename : String
  content_type : Option String
  contents : List Nat

/-- The Python `str.startswith`, character by character. -/
def startswith : List Char → List Char → Bool
  | [], _ => true
  | _ :: _, [] => false
  | p :: ps, c :: cs => (p == c) && startswith ps cs

/-- The Python `s.startswith(pre)` on strings. -/
def str_startswith (s pre : String) : Bool := startswith pre.toList s.toList

/-- The guard of app.py line 175:
`not file.content_type or not file.content_type.startswith("image/")`,
with Python string truthiness made explicit (an empty string is falsy). -/
def contentTypeOk : Option String → Bool
  | none => false
  | some ct => (!(ct == "")) && str_startswith ct "image/"

/-- The `POST /predict` handler (app.py lines 160-199): content-type guard
raising 400 before the try block, then read + `Image.open` + `predict_image`
inside a try whose except reports 500 with
`f"Error processing image: \x7bstr(e)\x7d"`. -/
noncomputable def predict (env : Env) (model : Option Model)
    (file : UploadFile) : PredictResponse :=
  if ¬ contentTypeOk file.content_type then
    PredictResponse.httpError 400 "File must be an image (JPEG, PNG, etc.)"
  else
    match env.openImage file.contents with
    | Except.error e =>
        PredictResponse.httpError 500 ("Error processing image: " ++ e)
    | Except.ok image =>
      match predict_image env model image with
      | Except.error e =>
          PredictResponse.httpError 500 ("Error processing image: " ++ e)
      | Except.ok result => PredictResponse.success file.filename result

/-! ### Numeric facts about softmax and the presentation rounding -/

/-- The two softmax probabilities sum to 1. -/
theorem softmax2_sum (x y : ℝ) : (softmax2 x y).1 + (softmax2 x y).2 = 1 := by
  have h : Real.exp x + Real.exp y ≠ 0 := by positivity
  unfold softmax2
  rw [div_add_div_same, div_self h]

/-- Each softmax probability is strictly positive. -/
theorem softmax2_pos (x y : ℝ) :
    0 < (softmax2 x y).1 ∧ 0 < (softmax2 x y).2 := by
  have h : 0 < Real.exp x + Real.exp y := by positivity
  constructor <;> exact div_pos (Real.exp_pos _) h

/-- Softmax of two equal logits is the uniform distribution. -/
theorem softmax2_same (x : ℝ) : softmax2 x x = (1 / 2, 1 / 2) := by
  have h : Real.exp x + Real.exp x ≠ 0 := by positivity
  unfold softmax2
  have hc : Real.exp x / (Real.exp x + Real.exp x) = 1 / 2 := by
    rw [div_eq_div_iff h (by norm_num : (2:ℝ) ≠ 0)]
    ring
  rw [hc]

/-- Round-half-even is within a half of its argument. -/
theorem abs_roundHalfEven_sub (x : ℝ) :
    |(roundHalfEven x : ℝ) - x| ≤ 1 / 2 := by
  unfold roundHalfEven
  by_cases h : Int.fract x = 1 / 2
  · rw [if_pos h]
    have hx : x = (⌊x⌋ : ℝ) + 1 / 2 := by
      have hf := Int.floor_add_fract x
      rw [h] at hf
      linarith
    rcases Int.even_or_odd ⌊x⌋ with ⟨k, hk⟩ | ⟨k, hk⟩
    · have hr : round (x / 2) = k := by
        rw [hx, hk, round_eq]
        push_cast
        rw [show ((k : ℝ) + k + 1 / 2) / 2 + 1 / 2 = (k : ℝ) + 3 / 4 by ring,
          Int.floor_int_add]
        have : ⌊(3 / 4 : ℝ)⌋ = 0 := by
          rw [Int.floor_eq_zero_iff]
          constructor <;> norm_num
        rw [this, add_zero]
      rw [hr, hx, hk]
      push_cast
      rw [show (2 : ℝ) * k - ((k : ℝ) + k + 1 / 2) = -(1 / 2) by ring]
      rw [abs_neg, abs_of_nonneg (by norm_num : (0:ℝ) ≤ 1 / 2)]
    · have hr : round (x / 2) = k + 1 := by
        rw [hx, hk, round_eq]
        push_cast
        rw [show ((2 * (k : ℝ) + 1) + 1 / 2) / 2 + 1 / 2 = (k : ℝ) + 5 / 4 by ring,
          Int.floor_int_add]
        have : ⌊(5 / 4 : ℝ)⌋ = 1 := by
          rw [Int.floor_eq_iff]
          constructor <;> norm_num
        rw [this]
      rw [hr, hx, hk]
      push_cast
      rw [show (2 : ℝ) * ((k : ℝ) + 1) - ((2 * (k : ℝ) + 1) + 1 / 2) = 1 / 2 by ring]
      rw [abs_of_nonneg (by norm_num : (0:ℝ) ≤ 1 / 2)]
  · rw [if_neg h, abs_sub_comm]
    exact abs_sub_round x

/-- The presentation rounding moves a value by at most half a unit in the
fourth decimal place. -/
theorem abs_round4_sub (x : ℝ) : |round4 x - x| ≤ 1 / 20000 := by
  unfold round4
  have h := abs_le.mp (abs_roundHalfEven_sub (x * 10000))
  rw [abs_le]
  constructor <;> [linarith [h.1]; linarith [h.2]]

/-- Rounding to four decimals cannot drag a value that is at least one half
below one half (integrality of the rounded numerator). -/
theorem round4_ge_half (x : ℝ) (hx : 1 / 2 ≤ x) : 1 / 2 ≤ round4 x := by
  unfold round4
  have h := abs_le.mp (abs_roundHalfEven_sub (x * 10000))
  have h1 : (4999 : ℝ) < (roundHalfEven (x * 10000) : ℝ) := by linarith [h.1]
  have h2 : (4999 : ℤ) < roundHalfEven (x * 10000) := by exact_mod_cast h1
  have h3 : (5000 : ℝ) ≤ (roundHalfEven (x * 10000) : ℝ) := by exact_mod_cast h2
  linarith

/-- Rounding an exact half gives back an exact half. -/
theorem round4_half : round4 (1 / 2 : ℝ) = 1 / 2 := by
  unfold round4 roundHalfEven
  rw [show (1 / 2 : ℝ) * 10000 = ((5000 : ℤ) : ℝ) by norm_num, Int.fract_intCast,
    if_neg (by norm_num : ¬ ((0 : ℝ) = 1 / 2)), round_intCast]
  norm_num

/-! ### Unfolding `predict_image` on a successful pipeline -/

/-- When the model is loaded and the preprocessing and forward pass succeed
with logits `(a, b)`, `predict_image` returns exactly the record built by
lines 101-113 of app.py from the softmax of those logits. -/
theorem predict_image_run (env : Env) (m : Model) (image : PILImage)
    (t : Tensor) (a b : ℝ)
    (hpre : env.preprocessT (to_rgb env image) = Except.ok t)
    (hfwd : m.forward t = Except.ok (a, b)) :
    predict_image env (some m) image = Except.ok {
      is_fake := decide ((softmax2 a b).2 > 0.5),
      confidence := round4 (if decide ((softmax2 a b).2 > 0.5) then (softmax2 a b).2
        else (softmax2 a b).1),
      label := if decide ((softmax2 a b).2 > 0.5) then "FAKE" else "REAL",
      probabilities := { real := round4 (softmax2 a b).1,
                         fake := round4 (softmax2 a b).2 } } := by
  simp only [predict_image, hpre, hfwd]

/-! ### Concrete instances of the black boxes, for evaluating the pipeline -/

/-- A concrete environment: conversion forces mode "RGB", preprocessing and
decoding always succeed with fixed outputs. -/
noncomputable def envW : Env where
  convertRGB := fun img => { mode := "RGB", data := img.data }
  preprocessT := fun _ => Except.ok { data := [] }
  openImage := fun _ => Except.ok { mode := "RGB", data := [] }

/-- A concrete model whose forward pass always yields equal logits. -/
noncomputable def modelW : Model where
  forward := fun _ => Except.ok (0, 0)

/-- A concrete RGB image. -/
def imgW : PILImage := { mode := "RGB", data := [] }

/-- A concrete grayscale image. -/
def imgL : PILImage := { mode := "L", data := [] }

/-- A concrete image upload. -/
def fileW : UploadFile :=
  { filename := "a.png", content_type := some "image/png", contents := [] }

/-- A concrete non-image upload. -/
def fileTxt : UploadFile :=
  { filename := "a.txt", content_type := some "text/plain", contents := [] }

/-- The prediction record the concrete instances produce. -/
noncomputable def resW : PredictionResult :=
  { is_fake := false, confidence := 1 / 2, label := "REAL",
    probabilities := { real := 1 / 2, fake := 1 / 2 } }

/-- On the concrete instances the whole pipeline evaluates: equal logits give
the uniform softmax, `is_fake` is false and everything rounds to a half. -/
theorem predict_image_envW :
    predict_image envW (some modelW) imgW = Except.ok resW := by
  unfold resW
  have hrun := predict_image_run envW modelW imgW { data := [] } 0 0 rfl rfl
  rw [hrun, softmax2_same]
  have hd : decide (((1 / 2, 1 / 2) : ℝ × ℝ).2 > 0.5) = false :=
    decide_eq_false (by norm_num)
  rw [hd]
  simp only [Bool.false_eq_true, if_false]
  rw [round4_half]

/-! ### The claims -/

/-- Claim C1: for every prediction result returned by `predict_image`,
`is_fake` equals `fake_probability > 0.5` with a strict comparison: when the
unrounded fake-class probability is exactly 0.5, `is_fake` is false and the
label is "REAL". -/
theorem threshold_strict (env : Env) (m : Model) (image : PILImage)
    (t : Tensor) (a b : ℝ)
    (hpre : env.preprocessT (to_rgb env image) = Except.ok t)
    (hfwd : m.forward t = Except.ok (a, b)) :
    ∃ r, predict_image env (some m) image = Except.ok r ∧
      (r.is_fake = true ↔ (softmax2 a b).2 > 0.5) ∧
      ((softmax2 a b).2 = 0.5 → r.is_fake = false ∧ r.label = "REAL") := by
  refine ⟨_, predict_image_run env m image t a b hpre hfwd, ?_, ?_⟩
  · exact decide_eq_true_iff
  · intro h
    have hn : ¬ ((softmax2 a b).2 > 0.5) := by rw [h]; exact lt_irrefl _
    exact ⟨decide_eq_false hn, by simp [decide_eq_false hn]⟩

theorem threshold_strict_witness :
    ∃ r, predict_image envW (some modelW) imgW = Except.ok r ∧
      (r.is_fake = true ↔ (softmax2 0 0).2 > 0.5) ∧
      ((softmax2 0 0).2 = 0.5 → r.is_fake = false ∧ r.label = "REAL") :=
  threshold_strict envW modelW imgW { data := [] } 0 0 rfl rfl

/-- Claim C2: for every prediction result, `confidence` equals the rounded
probability of the class named in `label` (fake probability when the label is
"FAKE", real probability when it is "REAL"), never the probability of the
other class. -/
theorem confidence_matches_label (env : Env) (m : Model) (image : PILImage)
    (t : Tensor) (a b : ℝ)
    (hpre : env.preprocessT (to_rgb env image) = Except.ok t)
    (hfwd : m.forward t = Except.ok (a, b)) :
    ∃ r, predict_image env (some m) image = Except.ok r ∧
      (r.label = "FAKE" → r.confidence = r.probabilities.fake) ∧
      (r.label = "REAL" → r.confidence = r.probabilities.real) := by
  refine ⟨_, predict_image_run env m image t a b hpre hfwd, ?_, ?_⟩
  · intro hl
    by_cases hp : (softmax2 a b).2 > 0.5
    · simp [decide_eq_true hp]
    · simp [decide_eq_false hp] at hl
  · intro hl
    by_cases hp : (softmax2 a b).2 > 0.5
    · simp [decide_eq_true hp] at hl
    · simp [decide_eq_false hp]

theorem confidence_matches_label_witness :
    ∃ r, predict_image envW (some modelW) imgW = Except.ok r ∧
      (r.label = "FAKE" → r.confidence = r.probabilities.fake) ∧
      (r.label = "REAL" → r.confidence = r.probabilities.real) :=
  confidence_matches_label envW modelW imgW { data := [] } 0 0 rfl rfl

/-- Claim C3: calling `predict_image` while the process-wide model handle is
uninitialized (`none`) yields the "Model not loaded" error, independently of
the environment and the image (so before any conversion or tensor work);
with a loaded model the same call proceeds through inference and succeeds. -/
theorem model_guard (env env2 : Env) (image image2 : PILImage) (m : Model)
    (t : Tensor) (a b : ℝ)
    (hpre : env.preprocessT (to_rgb env image) = Except.ok t)
    (hfwd : m.forward t = Except.ok (a, b)) :
    predict_image env none image = Except.error "Model not loaded" ∧
    predict_image env none image = predict_image env2 none image2 ∧
    ∃ r, predict_image env (some m) image = Except.ok r :=
  ⟨rfl, rfl, _, predict_image_run env m image t a b hpre hfwd⟩

theorem model_guard_witness :
    predict_image envW none imgW = Except.error "Model not loaded" ∧
    predict_image envW none imgW = predict_image envW none imgL ∧
    ∃ r, predict_image envW (some modelW) imgW = Except.ok r :=
  model_guard envW envW imgW imgL modelW { data := [] } 0 0 rfl rfl

/-- Claim C4: inference is deterministic: for a fixed loaded model and image,
two runs of `predict_image` on the same exact image yield identical label and
identical confidence. -/
theorem inference_deterministic (env : Env) (model : Option Model)
    (image : PILImage) (r1 r2 : PredictionResult)
    (h1 : predict_image env model image = Except.ok r1)
    (h2 : predict_image env model image = Except.ok r2) :
    r1.label = r2.label ∧ r1.confidence = r2.confidence := by
  have h := h1.symm.trans h2
  injection h with h
  subst h
  exact ⟨rfl, rfl⟩

theorem inference_deterministic_witness :
    resW.label = resW.label ∧ resW.confidence = resW.confidence :=
  inference_deterministic envW (some modelW) imgW resW resW
    predict_image_envW predict_image_envW

/-- Claim C5: for every successfully processed image, the two reported
(4-decimal rounded) class probabilities sum to 1 within the rounding
tolerance of one unit in the fourth decimal, because the softmax of the two
logits sums to exactly 1. -/
theorem reported_probabilities_sum (env : Env) (m : Model) (image : PILImage)
    (t : Tensor) (a b : ℝ)
    (hpre : env.preprocessT (to_rgb env image) = Except.ok t)
    (hfwd : m.forward t = Except.ok (a, b)) :
    ∃ r, predict_image env (some m) image = Except.ok r ∧
      |r.probabilities.real + r.probabilities.fake - 1| ≤ 1 / 10000 := by
  refine ⟨_, predict_image_run env m image t a b hpre hfwd, ?_⟩
  have hsum := softmax2_sum a b
  have h1 := abs_le.mp (abs_round4_sub (softmax2 a b).1)
  have h2 := abs_le.mp (abs_round4_sub (softmax2 a b).2)
  show |round4 (softmax2 a b).1 + round4 (softmax2 a b).2 - 1| ≤ 1 / 10000
  rw [abs_le]
  exact ⟨by linarith [h1.1, h2.1], by linarith [h1.2, h2.2]⟩

theorem reported_probabilities_sum_witness :
    ∃ r, predict_image envW (some modelW) imgW = Except.ok r ∧
      |r.probabilities.real + r.probabilities.fake - 1| ≤ 1 / 10000 :=
  reported_probabilities_sum envW modelW imgW { data := [] } 0 0 rfl rfl

/-- Claim C6: the three reported probability values are `round4` of the
softmax values only in the returned record, while the `is_fake` decision, the
choice of confidence source and the label are computed on the unrounded
softmax values. -/
theorem rounding_presentation_only (env : Env) (m : Model) (image : PILImage)
    (t : Tensor) (a b : ℝ)
    (hpre : env.preprocessT (to_rgb env image) = Except.ok t)
    (hfwd : m.forward t = Except.ok (a, b)) :
    predict_image env (some m) image = Except.ok {
      is_fake := decide ((softmax2 a b).2 > 0.5),
      confidence := round4 (if (softmax2 a b).2 > 0.5 then (softmax2 a b).2
        else (softmax2 a b).1),
      label := if (softmax2 a b).2 > 0.5 then "FAKE" else "REAL",
      probabilities := { real := round4 (softmax2 a b).1,
                         fake := round4 (softmax2 a b).2 } } := by
  rw [predict_image_run env m image t a b hpre hfwd]
  by_cases hp : (softmax2 a b).2 > 0.5
  · simp [decide_eq_true hp, if_pos hp]
  · simp [decide_eq_false hp, if_neg hp]

theorem rounding_presentation_only_witness :
    predict_image envW (some modelW) imgW = Except.ok {
      is_fake := decide ((softmax2 0 0).2 > 0.5),
      confidence := round4 (if (softmax2 0 0).2 > 0.5 then (softmax2 0 0).2
        else (softmax2 0 0).1),
      label := if (softmax2 0 0).2 > 0.5 then "FAKE" else "REAL",
      probabilities := { real := round4 (softmax2 0 0).1,
                         fake := round4 (softmax2 0 0).2 } } :=
  rounding_presentation_only envW modelW imgW { data := [] } 0 0 rfl rfl

/-- Claim C7: a request whose declared content type is absent or does not
start with "image/" gets the 400 client error, for every environment, model
state and upload contents (so before reading or decoding the upload and
without invoking the model). -/
theorem non_image_rejected (env env2 : Env) (model model2 : Option Model)
    (file : UploadFile) (c2 : List Nat)
    (hct : ∀ ct, file.content_type = some ct → str_startswith ct "image/" = false) :
    predict env model file =
      PredictResponse.httpError 400 "File must be an image (JPEG, PNG, etc.)" ∧
    predict env model file = predict env2 model2 { file with contents := c2 } := by
  have hok : contentTypeOk file.content_type = false := by
    cases hc : file.content_type with
    | none => rfl
    | some ct => simp [contentTypeOk, hct ct hc]
  constructor
  · simp [predict, hok]
  · simp [predict, hok]

theorem non_image_rejected_witness :
    predict envW (some modelW) fileTxt =
      PredictResponse.httpError 400 "File must be an image (JPEG, PNG, etc.)" ∧
    predict envW (some modelW) fileTxt =
      predict envW none { fileTxt with contents := [7] } := by
  refine non_image_rejected envW envW (some modelW) none fileTxt [7] ?_
  intro ct hc
  have h : some "text/plain" = some ct := hc
  injection h with h
  subst h
  decide

/-- Claim C8: a non-RGB input image is silently converted to 3-channel RGB
and produces a normal prediction result with no error, while an already-RGB
image is passed through unconverted. -/
theorem nonrgb_converted (env : Env) (m : Model) (image : PILImage)
    (t : Tensor) (a b : ℝ)
    (hconv : ∀ i, (env.convertRGB i).mode = "RGB")
    (hpre : env.preprocessT (to_rgb env image) = Except.ok t)
    (hfwd : m.forward t = Except.ok (a, b)) :
    (image.mode ≠ "RGB" →
      to_rgb env image = env.convertRGB image ∧ (to_rgb env image).mode = "RGB") ∧
    (image.mode = "RGB" → to_rgb env image = image) ∧
    ∃ r, predict_image env (some m) image = Except.ok r := by
  refine ⟨?_, ?_, _, predict_image_run env m image t a b hpre hfwd⟩
  · intro h
    have he : to_rgb env image = env.convertRGB image := if_pos h
    exact ⟨he, he ▸ hconv image⟩
  · intro h
    exact if_neg (by simp [h])

theorem nonrgb_converted_witness :
    (imgL.mode ≠ "RGB" →
      to_rgb envW imgL = envW.convertRGB imgL ∧ (to_rgb envW imgL).mode = "RGB") ∧
    (imgL.mode = "RGB" → to_rgb envW imgL = imgL) ∧
    ∃ r, predict_image envW (some modelW) imgL = Except.ok r :=
  nonrgb_converted envW modelW imgL { data := [] } 0 0 (fun _ => rfl) rfl rfl

/-- Claim C9: for an image/* request, any failure during decoding or during
`predict_image` (including the "Model not loaded" error) is caught at the
request boundary and reported as a 500 whose detail embeds the underlying
message, with no success record returned. -/
theorem processing_failure_is_500 (env : Env) (model : Option Model)
    (file : UploadFile) (image : PILImage) (e : String)
    (hct : contentTypeOk file.content_type = true) :
    (env.openImage file.contents = Except.error e →
      predict env model file =
        PredictResponse.httpError 500 ("Error processing image: " ++ e)) ∧
    (env.openImage file.contents = Except.ok image →
      predict_image env model image = Except.error e →
      predict env model file =
        PredictResponse.httpError 500 ("Error processing image: " ++ e)) ∧
    (env.openImage file.contents = Except.ok image →
      predict env none file =
        PredictResponse.httpError 500 "Error processing image: Model not loaded") := by
  refine ⟨?_, ?_, ?_⟩
  · intro h
    simp [predict, hct, h]
  · intro h1 h2
    simp [predict, hct, h1, h2]
  · intro h
    simp [predict, predict_image, hct, h]

theorem processing_failure_is_500_witness :
    (envW.openImage fileW.contents = Except.error "Model not loaded" →
      predict envW none fileW =
        PredictResponse.httpError 500
          ("Error processing image: " ++ "Model not loaded")) ∧
    (envW.openImage fileW.contents = Except.ok imgW →
      predict_image envW none imgW = Except.error "Model not loaded" →
      predict envW none fileW =
        PredictResponse.httpError 500
          ("Error processing image: " ++ "Model not loaded")) ∧
    (envW.openImage fileW.contents = Except.ok imgW →
      predict envW none fileW =
        PredictResponse.httpError 500 "Error processing image: Model not loaded") :=
  processing_failure_is_500 envW none fileW imgW "Model not loaded" rfl

/-- Claim C10: the confidence equals the rounded maximum of the two class
probabilities and is therefore always at least 0.5: the two softmax
probabilities sum to 1, so the probability of the chosen class is the larger
one. -/
theorem confidence_is_rounded_max (env : Env) (m : Model) (image : PILImage)
    (t : Tensor) (a b : ℝ)
    (hpre : env.preprocessT (to_rgb env image) = Except.ok t)
    (hfwd : m.forward t = Except.ok (a, b)) :
    ∃ r, predict_image env (some m) image = Except.ok r ∧
      r.confidence = round4 (max (softmax2 a b).1 (softmax2 a b).2) ∧
      (0.5 : ℝ) ≤ r.confidence := by
  have hsum := softmax2_sum a b
  refine ⟨_, predict_image_run env m image t a b hpre hfwd, ?_, ?_⟩
  · by_cases hp : (softmax2 a b).2 > 0.5
    · have h21 : (softmax2 a b).1 ≤ (softmax2 a b).2 := by linarith
      simp [decide_eq_true hp, max_eq_right h21]
    · have h12 : (softmax2 a b).2 ≤ (softmax2 a b).1 := by
        have := not_lt.mp hp
        linarith
      simp [decide_eq_false hp, max_eq_left h12]
  · by_cases hp : (softmax2 a b).2 > 0.5
    · have hhalf : (1 / 2 : ℝ) ≤ (softmax2 a b).2 := by linarith
      have hr := round4_ge_half _ hhalf
      simp only [decide_eq_true hp, if_true]
      show (0.5 : ℝ) ≤ round4 (softmax2 a b).2
      linarith
    · have hple := not_lt.mp hp
      have hhalf : (1 / 2 : ℝ) ≤ (softmax2 a b).1 := by linarith
      have hr := round4_ge_half _ hhalf
      simp only [decide_eq_false hp, Bool.false_eq_true, if_false]
      show (0.5 : ℝ) ≤ round4 (softmax2 a b).1
      linarith

theorem confidence_is_rounded_max_witness :
    ∃ r, predict_image envW (some modelW) imgW = Except.ok r ∧
      r.confidence = round4 (max (softmax2 0 0).1 (softmax2 0 0).2) ∧
      (0.5 : ℝ) ≤ r.confidence :=
  confidence_is_rounded_max envW modelW imgW { data := [] } 0 0 rfl rfl

end IsItAI
